import Mathlib

/-
Verification development for the financial diagnostic engine
(`src/diagnostic_engine.py`), with the questionnaire generator and the
aggregation contract. The Python code operates on pandas DataFrames of
transactions and accounts; the embedding below models:
  - DataFrame cells that can be NaN (pandas `std()` over fewer than two
    observations, unaligned index subtraction) by the type `PF`;
  - `groupby('month')` as summation over the sorted distinct month keys
    (pandas sorts group keys ascending by default);
  - pandas Series subtraction (`monthly_income - monthly_expenses`) as an
    index-aligned operation over the sorted union of keys, producing NaN
    where either side is missing;
  - Python `round(x, 1)` as round-half-to-even on rationals;
  - the floating-point square root inside `Series.std()` by the rational
    square-root approximation `Rat.sqrt`; every theorem below that depends
    on a standard-deviation value only exercises it at variance 0, where
    both the float and the rational square root are exactly 0.
All money amounts are modelled as exact rationals.
-/

namespace PFD

/-- A pandas/NumPy floating-point cell: NaN or a finite value. The source
stores scores as Python ints but ratios and standard deviations as floats
which can be NaN; comparisons against NaN are False in Python, and the
Boolean comparison operations below reproduce that. -/
inductive PF where
  | nan : PF
  | fin : ℚ → PF
deriving DecidableEq

/-- `1 - x` with NaN propagation (source line 86 and 410). -/
def PF.oneSub : PF → PF
  | PF.nan => PF.nan
  | PF.fin x => PF.fin (1 - x)

/-- Division of a possibly-NaN value by a rational. Every division in the
source is guarded so that the denominator is nonzero when this is reached;
the Lean junk value `x / 0 = 0` is never exercised. -/
def PF.divQ : PF → ℚ → PF
  | PF.nan, _ => PF.nan
  | PF.fin x, c => PF.fin (x / c)

/-- Multiplication of a possibly-NaN value by a rational. -/
def PF.mulQ : PF → ℚ → PF
  | PF.nan, _ => PF.nan
  | PF.fin x, c => PF.fin (x * c)

/-- Division of two possibly-NaN values (source line 410, guarded by
`mean != 0` so the finite denominator is nonzero when reached). -/
def PF.divPF : PF → PF → PF
  | PF.nan, _ => PF.nan
  | PF.fin _, PF.nan => PF.nan
  | PF.fin x, PF.fin y => PF.fin (x / y)

/-- Python `value > c`: False when the value is NaN. -/
def PF.gtQ : PF → ℚ → Bool
  | PF.nan, _ => false
  | PF.fin x, c => decide (c < x)

/-- Python `value < c`: False when the value is NaN. -/
def PF.ltQ : PF → ℚ → Bool
  | PF.nan, _ => false
  | PF.fin x, c => decide (x < c)

/-- Python `value >= c`: False when the value is NaN. -/
def PF.geQ : PF → ℚ → Bool
  | PF.nan, _ => false
  | PF.fin x, c => decide (c ≤ x)

/-- Python `value != c`: True when the value is NaN (NaN compares unequal
to everything). -/
def PF.neQ : PF → ℚ → Bool
  | PF.nan, _ => true
  | PF.fin x, c => decide (x ≠ c)

/-- Python `min(1, x)` as used at source line 411. CPython keeps the first
argument unless a later one compares strictly smaller, so `min(1, nan)`
returns `1` (the NaN comparison is False). -/
def pyMinOne : PF → ℚ
  | PF.nan => 1
  | PF.fin q => min q 1

/-- Python `max(0, q)` on an already-finite value (source line 411 applies
it after `min(1, ·)`, which always yields a finite value). -/
def pyMaxZero (q : ℚ) : ℚ := max 0 q

/-- Sum of a list of amounts, as pandas `Series.sum()` over finite cells. -/
def listSum (l : List ℚ) : ℚ := l.foldr (· + ·) 0

/-- Mean of a list of amounts; meaningful only for nonempty lists, which is
how every call site below uses it (pandas returns NaN on empty input, and
those sites are modelled through `pmean`). -/
def listMean (l : List ℚ) : ℚ := listSum l / (l.length : ℚ)

/-- pandas `Series.mean()`: NaN on an empty series. -/
def pmean (l : List ℚ) : PF := if l.length = 0 then PF.nan else PF.fin (listMean l)

/-- Sample variance with `ddof = 1`, the pandas default; meaningful only
for lists of length at least two (guarded by `pstd`). -/
def sampleVar (l : List ℚ) : ℚ :=
  listSum (l.map (fun x => (x - listMean l) ^ 2)) / ((l.length : ℚ) - 1)

/-- pandas `Series.std()` (ddof = 1): NaN for fewer than two observations,
otherwise the square root of the sample variance. The source takes a
floating-point square root; `Rat.sqrt` is its rational counterpart, exact
at 0, which is the only value any theorem below depends on. -/
def pstd (l : List ℚ) : PF :=
  if l.length < 2 then PF.nan else PF.fin (Rat.sqrt (sampleVar l))

/-- The finite entries of a possibly-NaN series (pandas aggregations skip
NaN entries by default, `skipna=True`). -/
def finsOf (l : List PF) : List ℚ :=
  l.filterMap (fun x => match x with | PF.nan => none | PF.fin q => some q)

/-- pandas `Series.mean()` over a series that may contain NaN entries. -/
def pmeanPF (l : List PF) : PF := pmean (finsOf l)

/-- pandas `Series.std()` over a series that may contain NaN entries. -/
def pstdPF (l : List PF) : PF := pstd (finsOf l)

/-- Round half to even to an integer, the tie rule of Python `round`. -/
def roundHalfEven (q : ℚ) : ℤ :=
  let f := Int.floor q
  let r := q - (f : ℚ)
  if r < 1/2 then f
  else if 1/2 < r then f + 1
  else if f % 2 = 0 then f else f + 1

/-- Python `round(q, 1)` (source line 638). -/
def pyRound1 (q : ℚ) : ℚ := ((roundHalfEven (10 * q) : ℤ) : ℚ) / 10

/-- Python fixed-point formatting `f"{q:.d f}"` used in risk messages; the
source formats IEEE floats, so the least digit can differ on halfway
inputs, and Python prints a negative zero where this prints "0...";
no claim depends on the text of a risk entry. -/
def formatFixed (d : ℕ) (q : ℚ) : String :=
  let n := roundHalfEven (((10 : ℤ) ^ d : ℤ) * q)
  let sign := if n < 0 then "-" else ""
  let m := n.natAbs
  if d = 0 then sign ++ toString m
  else
    let pow := (10 : ℕ) ^ d
    let fs := toString (m % pow)
    let pad := String.mk (List.replicate (d - fs.length) '0')
    sign ++ toString (m / pow) ++ "." ++ pad ++ fs

/-- Formatting of a possibly-NaN value (Python prints `nan`). -/
def pfFormatFixed (d : ℕ) : PF → String
  | PF.nan => "nan"
  | PF.fin q => formatFixed d q

/-- Whether the first character list is an initial segment of the second. -/
def charListStarts : List Char → List Char → Bool
  | [], _ => true
  | _ :: _, [] => false
  | a :: as, b :: bs => a == b && charListStarts as bs

/-- Whether the needle occurs as a contiguous run inside the haystack. -/
def charListHas (needle : List Char) : List Char → Bool
  | [] => needle.isEmpty
  | b :: bs => charListStarts needle (b :: bs) || charListHas needle bs

/-- Python `needle in hay` on strings. -/
def strContainsB (hay needle : String) : Bool := charListHas needle.toList hay.toList

/-- Case-insensitive containment: Python `Series.str.contains(pat, case=False)`
with a lowercase pattern, and `needle in gap.lower()`. -/
def lowerHas (hay needle : String) : Bool := strContainsB hay.toLower needle

/-- Keyword match on a transaction description,
`str.contains('kw1|kw2|...', case=False, na=False)`: a missing
description never matches (`na=False`). -/
def matchesAny (keywords : List String) : Option String → Bool
  | none => false
  | some d => keywords.any (fun k => lowerHas d k)

/-- A calendar date as parsed by `pd.to_datetime`. -/
structure Date where
  year : ℤ
  month : ℕ
  day : ℕ
deriving DecidableEq

/-- A raw transaction row as handed to the engine. `none` in `date` models
a value `pd.to_datetime(..., errors='coerce')` turns into NaT, `none` in
`amount` one that `pd.to_numeric(..., errors='coerce')` turns into NaN;
`category` and `description` are optional columns that may hold NaN. -/
structure RawTx where
  date : Option Date
  amount : Option ℚ
  txType : String
  category : Option String
  description : Option String
deriving DecidableEq

/-- A prepared transaction row after `_prepare_data`: the date parsed, the
`month` period bucket derived, the amount numeric; `type`, `category` and
`description` exactly as in the raw row. -/
structure Tx where
  date : Date
  month : ℤ
  amount : ℚ
  txType : String
  category : Option String
  description : Option String
deriving DecidableEq

/-- The linear index of the calendar month of a date, the embedding of the
period `dt.to_period('M')`: months compare and sort like these indices. -/
def monthIndex (d : Date) : ℤ := d.year * 12 + (d.month : ℤ)

/-- `_prepare_data` (source lines 65-73): parse dates and drop rows whose
date fails to parse, derive the month bucket, coerce amounts and drop rows
whose amount is not numeric. `type` and `category` pass through unchanged
-- this step neither lower-cases `type` nor fills `category`. -/
def prepareData (rows : List RawTx) : List Tx :=
  rows.filterMap (fun r =>
    match r.date, r.amount with
    | some d, some a => some ⟨d, monthIndex d, a, r.txType, r.category, r.description⟩
    | _, _ => none)

/-- Insert into an ascending list of month keys. -/
def insertAsc (m : ℤ) : List ℤ → List ℤ
  | [] => [m]
  | x :: xs => if m ≤ x then m :: x :: xs else x :: insertAsc m xs

/-- Ascending sort of month keys (pandas sorts group keys ascending). -/
def sortAsc (l : List ℤ) : List ℤ := l.foldr insertAsc []

/-- The distinct month keys of a transaction set, ascending. -/
def monthKeys (l : List Tx) : List ℤ := sortAsc (l.map Tx.month).dedup

/-- Total amount in a given month. -/
def sumFor (l : List Tx) (m : ℤ) : ℚ :=
  listSum ((l.filter (fun t => t.month == m)).map Tx.amount)

/-- `groupby('month')['amount'].sum()`: the ascending month keys paired
with their totals. -/
def monthlySums (l : List Tx) : List (ℤ × ℚ) :=
  (monthKeys l).map (fun m => (m, sumFor l m))

/-- The values of the monthly-sum series in ascending month order. -/
def monthlyVals (l : List Tx) : List ℚ := (monthlySums l).map Prod.snd

/-- Value of a keyed series at a month, when present. -/
def lookupMonth (m : ℤ) (l : List (ℤ × ℚ)) : Option ℚ :=
  (l.find? (fun p => p.1 == m)).map Prod.snd

/-- pandas Series subtraction `a - b` with index alignment: the result is
indexed by the sorted union of the keys and holds NaN wherever either
operand lacks the key (source lines 380, 405 and 569). Only the values are
needed downstream. -/
def alignedSub (a b : List (ℤ × ℚ)) : List PF :=
  (sortAsc ((a.map Prod.fst ++ b.map Prod.fst).dedup)).map (fun m =>
    match lookupMonth m a, lookupMonth m b with
    | some x, some y => PF.fin (x - y)
    | _, _ => PF.nan)

/-- `groupby('category')['amount'].sum()` as key-total pairs. pandas drops
NaN group keys, so rows with a missing category are excluded. The source
also sorts this series descending by value for display; the order never
affects a sum or a count, so no order is fixed here. -/
def categorySums (l : List Tx) : List (String × ℚ) :=
  ((l.filterMap Tx.category).dedup).map
    (fun c => (c, listSum ((l.filter (fun t => t.category == some c)).map Tx.amount)))

/-- `groupby('description')['amount'].sum()` as key-total pairs; pandas
drops NaN group keys. -/
def descriptionSums (l : List Tx) : List (String × ℚ) :=
  ((l.filterMap Tx.description).dedup).map
    (fun d => (d, listSum ((l.filter (fun t => t.description == some d)).map Tx.amount)))

/-- The top group total: the source sorts the grouped sums descending and
reads the first row (`income_sources.iloc[0]['sum']`), which is the
maximum of the group totals whatever tie order the unstable sort picks;
0 on an empty grouping, matching the `len > 0` guard. -/
def maxOfSums : List (String × ℚ) → ℚ
  | [] => 0
  | p :: ps => (ps.map Prod.snd).foldr max p.2

/-- An account row; the engine reads only the balance column. -/
structure Account where
  accType : String
  balance : ℚ
deriving DecidableEq

/-- The four-tier status ladder shared by most classifiers
(`'excellent' if score >= 80 else 'good' if score >= 60 else 'fair' if
score >= 40 else 'poor'`). -/
def statusLadder (score : ℕ) : String :=
  if 80 ≤ score then "excellent"
  else if 60 ≤ score then "good"
  else if 40 ≤ score then "fair"
  else "poor"

/-- Result of `_diagnose_income`. Fields that the no-data branch's dict
lacks are `Option`s holding `none` there. The source additionally returns
a display-only `details.top_sources` list whose order comes from an
unstable descending sort; it feeds nothing downstream and is omitted. -/
structure IncomeResult where
  score : ℕ
  status : String
  dataAvailable : Bool
  avgMonthlyIncome : Option ℚ
  stability : Option PF
  sources : Option ℕ
  primaryDependency : Option ℚ
deriving DecidableEq

/-- The trailing-3-month average of a monthly series (`iloc[-3:].mean()`,
the series being in ascending month order). -/
def trailing3Avg (m : List ℚ) : ℚ := listMean (m.drop (m.length - 3))

/-- The average of the months before the trailing three
(`iloc[:-3].mean()`); when the series has exactly three months the source
reuses the trailing average (`older = recent if len == 3`). -/
def priorAvg (m : List ℚ) : ℚ :=
  if 3 < m.length then listMean (m.take (m.length - 3)) else trailing3Avg m

/-- Income level points (source lines 97-102). -/
def incomeLevelPoints (avg : ℚ) : ℕ :=
  if 3000 < avg then 30 else if 2000 < avg then 20 else if 1000 < avg then 10 else 0

/-- Income stability points (source lines 104-109); a NaN stability passes
no comparison and scores 0. -/
def incomeStabilityPoints (st : PF) : ℕ :=
  if st.gtQ 0.8 then 30 else if st.gtQ 0.6 then 20 else if st.gtQ 0.4 then 10 else 0

/-- Primary-source dependency points (source lines 111-114). -/
def dependencyPoints (dep : ℚ) : ℕ :=
  if dep < 0.8 then 20 else if dep < 0.95 then 10 else 0

/-- Income growth points (source lines 117-123): with at least three
months, +20 when the trailing 3-month average exceeds 1.1 times the prior
average, +10 when it merely exceeds it. -/
def incomeGrowthPoints (monthly : List ℚ) : ℕ :=
  if 3 ≤ monthly.length then
    if priorAvg monthly * 1.1 < trailing3Avg monthly then 20
    else if priorAvg monthly < trailing3Avg monthly then 10 else 0
  else 0

/-- `_diagnose_income` (source lines 75-138), returning the result record,
the gap entries it appends and the risk entries it appends, in order. -/
def diagnoseIncome (txs : List Tx) : IncomeResult × List String × List String :=
  let df := txs.filter (fun t => t.txType == "income")
  if df.length = 0 then
    (⟨0, "critical", false, none, none, none, none⟩,
     ["No income data found - unable to assess income stability"], [])
  else
    let monthlyIncome := monthlyVals df
    let avgMonthlyIncome := if 0 < monthlyIncome.length then listMean monthlyIncome else 0
    let incomeStability : PF :=
      PF.oneSub (if 0 < avgMonthlyIncome then (pstd monthlyIncome).divQ avgMonthlyIncome
                 else PF.fin 1)
    let incomeSources := descriptionSums df
    let primaryIncome := maxOfSums incomeSources
    let totalIncome := listSum (df.map Tx.amount)
    let primaryDependency := if 0 < totalIncome then primaryIncome / totalIncome else 1
    let score := incomeLevelPoints avgMonthlyIncome + incomeStabilityPoints incomeStability +
                 dependencyPoints primaryDependency + incomeGrowthPoints monthlyIncome
    (⟨min score 100, statusLadder score, true, some avgMonthlyIncome, some incomeStability,
      some incomeSources.length, some primaryDependency⟩, [], [])

/-- Keyword list for essential spending categories (source line 154). -/
def essentialKeywords : List String :=
  ["grocery", "groceries", "rent", "mortgage", "utilities", "insurance", "health", "medical"]

/-- Expense-to-income ratio points (source lines 168-175). -/
def expenseRatioPoints (r : ℚ) : ℕ :=
  if r < 0.5 then 40 else if r < 0.7 then 30 else if r < 0.9 then 20 else 0

/-- Essential-spend ratio points (source lines 178-183). -/
def essentialRatioPoints (e : ℚ) : ℕ :=
  if 0.5 < e ∧ e < 0.8 then 30 else if 0.8 ≤ e then 20 else 10

/-- The expense-trend component of `_diagnose_expenses` (source lines
186-192): with at least three months of data, +30 when the trailing
3-month average is below 1.1 times the prior average, +15 when it is
below 1.2 times the prior average. -/
def expenseTrend (monthlyExpenses : List ℚ) : ℕ :=
  if 3 ≤ monthlyExpenses.length then
    let recent := trailing3Avg monthlyExpenses
    let older := priorAvg monthlyExpenses
    if recent < older * 1.1 then 30
    else if recent < older * 1.2 then 15 else 0
  else 0

/-- Result of `_diagnose_expenses`. The display-only `top_categories`
mapping (head of an unstable descending sort) feeds nothing downstream
and is omitted. -/
structure ExpensesResult where
  score : ℕ
  status : String
  dataAvailable : Bool
  avgMonthlyExpenses : Option ℚ
  expenseRatio : Option ℚ
  essentialRatio : Option ℚ
deriving DecidableEq

/-- `_diagnose_expenses` (source lines 140-204). -/
def diagnoseExpenses (txs : List Tx) : ExpensesResult × List String × List String :=
  let df := txs.filter (fun t => t.txType == "expense")
  if df.length = 0 then
    (⟨50, "unknown", false, none, none, none⟩, [], [])
  else
    let monthlyExpenses := monthlyVals df
    let avgMonthlyExpenses := listMean monthlyExpenses
    let essentialSpending :=
      listSum (((categorySums df).filter
        (fun p => essentialKeywords.any (fun kw => lowerHas p.1 kw))).map Prod.snd)
    let totalSpending := listSum (df.map Tx.amount)
    let essentialRatio := if 0 < totalSpending then essentialSpending / totalSpending else 0
    let incomeDf := txs.filter (fun t => t.txType == "income")
    let avgIncome := if 0 < incomeDf.length then listMean (monthlyVals incomeDf) else 0
    let expenseRatio := if 0 < avgIncome then avgMonthlyExpenses / avgIncome else 1
    let r1 : List String :=
      if 0.9 ≤ expenseRatio then
        ["High expense ratio: " ++ formatFixed 0 (expenseRatio * 100) ++ "% of income"]
      else []
    let score := expenseRatioPoints expenseRatio + essentialRatioPoints essentialRatio +
                 expenseTrend monthlyExpenses
    (⟨score, statusLadder score, true, some avgMonthlyExpenses, some expenseRatio,
      some essentialRatio⟩, [], r1)

/-- Keyword list for debt payments (source line 211). -/
def debtKeywords : List String :=
  ["loan", "credit card", "mortgage", "debt", "financing", "installment"]

/-- The gap text the debt classifier records when no debt keywords match
(source line 216). -/
def debtGapText : String :=
  "No debt payments detected - please confirm if you have any loans or credit cards"

/-- The debt score by debt-to-income band (source lines 228-238): 100,
stepped down to 80/60/40/20 as the ratio exceeds 0.15/0.28/0.36/0.5. -/
def debtScorePoints (d : ℚ) : ℕ :=
  if 0.5 < d then 20
  else if 0.36 < d then 40
  else if 0.28 < d then 60
  else if 0.15 < d then 80 else 100

/-- Result of `_diagnose_debt`. -/
structure DebtResult where
  score : ℕ
  status : String
  dataAvailable : Bool
  avgMonthlyDebt : Option ℚ
  debtToIncome : Option ℚ
  debtTypes : Option ℕ
deriving DecidableEq

/-- `_diagnose_debt` (source lines 206-249). The match runs over all
transactions, not only expenses. `debt_types` counts the distinct
descriptions of the matching rows; a matching row always has a
description (`na=False`), so no NaN key arises. -/
def diagnoseDebt (txs : List Tx) : DebtResult × List String × List String :=
  let debtPayments := txs.filter (fun t => matchesAny debtKeywords t.description)
  if debtPayments.length = 0 then
    (⟨70, "assumed_no_debt", false, none, none, none⟩, [debtGapText], [])
  else
    let avgMonthlyDebt := listMean (monthlyVals debtPayments)
    let incomeDf := txs.filter (fun t => t.txType == "income")
    let avgIncome := if 0 < incomeDf.length then listMean (monthlyVals incomeDf) else 1
    let debtToIncome := if 0 < avgIncome then avgMonthlyDebt / avgIncome else 0
    let score := debtScorePoints debtToIncome
    let risks : List String :=
      if 0.5 < debtToIncome then
        ["Very high debt-to-income ratio: " ++ formatFixed 0 (debtToIncome * 100) ++ "%"]
      else if 0.36 < debtToIncome then
        ["High debt-to-income ratio: " ++ formatFixed 0 (debtToIncome * 100) ++ "%"]
      else []
    let debtTypes := (debtPayments.filterMap Tx.description).dedup.length
    (⟨score, statusLadder score, true, some avgMonthlyDebt, some debtToIncome,
      some debtTypes⟩, [], risks)

/-- Keyword list for investment activity (source line 258). -/
def investmentKeywords : List String :=
  ["invest", "stock", "bond", "etf", "mutual fund", "dividend", "capital gain"]

/-- Emergency-fund points (source lines 277-284). -/
def emergencyFundPoints (m : ℚ) : ℕ :=
  if 6 ≤ m then 40 else if 3 ≤ m then 30 else if 1 ≤ m then 15 else 0

/-- Investment-activity points (source lines 287-295): +30 for any
keyword-matched investment transactions plus +20/10 by the activity rate,
or the +10 baseline when none exist. -/
def investmentPoints (hasInv : Bool) (rate : ℚ) : ℕ :=
  if hasInv then 30 + (if 0.05 < rate then 20 else if 0.02 < rate then 10 else 0)
  else 10

/-- Asset-to-income points (source lines 298-300). -/
def assetIncomePoints (r : ℚ) : ℕ := if 1 < r then 10 else 0

/-- Result of `_diagnose_assets`; every field is present in both source
branches. -/
structure AssetsResult where
  score : ℕ
  status : String
  totalBalance : ℚ
  emergencyFundMonths : ℚ
  hasInvestments : Bool
  investmentActivity : ℚ
  dataAvailable : Bool
deriving DecidableEq

/-- `_diagnose_assets` (source lines 251-312). -/
def diagnoseAssets (txs : List Tx) (accounts : List Account) :
    AssetsResult × List String × List String :=
  let totalBalance := if 0 < accounts.length then listSum (accounts.map Account.balance) else 0
  let investments := txs.filter (fun t => matchesAny investmentKeywords t.description)
  let hasInvestments := 0 < investments.length
  let investmentRate : ℚ :=
    if 0 < txs.length then (investments.length : ℚ) / (txs.length : ℚ) else 0
  let incomeDf := txs.filter (fun t => t.txType == "income")
  let avgIncome := if 0 < incomeDf.length then listMean (monthlyVals incomeDf) else 1
  let expenseDf := txs.filter (fun t => t.txType == "expense")
  let avgExpenses := if 0 < expenseDf.length then listMean (monthlyVals expenseDf) else 1
  let emergencyFundMonths := if 0 < avgExpenses then totalBalance / avgExpenses else 0
  let r1 : List String :=
    if emergencyFundMonths < 1 then
      ["Insufficient emergency fund: only " ++ formatFixed 1 emergencyFundMonths ++
       " months of expenses"]
    else []
  let g1 : List String :=
    if hasInvestments then []
    else ["No investment activity detected - consider building an investment portfolio"]
  let assetToIncome := if 0 < avgIncome then totalBalance / (avgIncome * 12) else 0
  let score := emergencyFundPoints emergencyFundMonths +
               investmentPoints hasInvestments investmentRate + assetIncomePoints assetToIncome
  (⟨score, statusLadder score, totalBalance, emergencyFundMonths, hasInvestments,
    investmentRate * 100, true⟩, g1, r1)

/-- Keyword list for insurance payments (source line 317). -/
def insuranceKeywords : List String :=
  ["insurance", "premium", "policy", "coverage", "insurer"]

/-- Insurance variety points (source lines 342-343). -/
def insuranceTypesPoints (n : ℕ) : ℕ := if 2 ≤ n then 20 else 0

/-- Premium-to-income band points (source lines 344-345). -/
def insuranceRatioPoints (r : ℚ) : ℕ := if 0.02 < r ∧ r < 0.15 then 30 else 0

/-- Result of `_diagnose_insurance`. -/
structure InsuranceResult where
  score : ℕ
  status : String
  dataAvailable : Bool
  needsQuestionnaire : Bool
  monthlyPremium : Option ℚ
  insuranceTypesDetected : Option ℕ
  insuranceRatio : Option ℚ
deriving DecidableEq

/-- `_diagnose_insurance` (source lines 314-355). -/
def diagnoseInsurance (txs : List Tx) : InsuranceResult × List String × List String :=
  let ins := txs.filter (fun t => matchesAny insuranceKeywords t.description)
  if ins.length = 0 then
    (⟨30, "unknown", false, true, none, none, none⟩,
     ["No insurance payments detected - please confirm your coverage status"], [])
  else
    let insuranceTypes := (ins.filterMap Tx.description).dedup.length
    let monthlyPremium := listMean (monthlyVals ins)
    let incomeDf := txs.filter (fun t => t.txType == "income")
    let avgIncome := if 0 < incomeDf.length then listMean (monthlyVals incomeDf) else 1
    let insuranceRatio := if 0 < avgIncome then monthlyPremium / avgIncome else 0
    let score := 50 + insuranceTypesPoints insuranceTypes + insuranceRatioPoints insuranceRatio
    (⟨score, "partial", true, true, some monthlyPremium, some insuranceTypes,
      some insuranceRatio⟩, [], [])

/-- Result of `_diagnose_goals`; `goals_count` exists only in the branch
with user-supplied goals. -/
structure GoalsResult where
  score : ℕ
  status : String
  goalsCount : Option ℕ
  dataAvailable : Bool
  needsQuestionnaire : Bool
deriving DecidableEq

/-- The savings-behavior bonus of `_diagnose_goals` (source lines
375-384): +40 when both income and expense rows exist and the mean of the
aligned monthly savings series is positive. -/
def goalsSavingsBonus (txs : List Tx) : ℕ :=
  let savingsDf := txs.filter (fun t => t.txType == "income")
  let expenseDf := txs.filter (fun t => t.txType == "expense")
  if 0 < savingsDf.length ∧ 0 < expenseDf.length then
    let monthlySavings := alignedSub (monthlySums savingsDf) (monthlySums expenseDf)
    let avgSavings := if 0 < monthlySavings.length then pmeanPF monthlySavings
                      else PF.fin 0
    if avgSavings.gtQ 0 then 40 else 0
  else 0

/-- `_diagnose_goals` (source lines 357-392); `userGoals` is the `goals`
list of the user profile, empty when the profile has none. -/
def diagnoseGoals (txs : List Tx) (userGoals : List String) :
    GoalsResult × List String × List String :=
  if userGoals.length = 0 then
    (⟨40, "undefined", none, false, true⟩,
     ["No financial goals defined - goal setting is crucial for financial success"], [])
  else
    let score := 60 + goalsSavingsBonus txs
    (⟨score, "defined", some userGoals.length, true, false⟩, [], [])

/-- Savings-rate points (source lines 420-429); a NaN rate passes no
comparison and scores 0, landing in the risk branch. -/
def savingsRatePoints (r : PF) : ℕ :=
  if r.geQ 20 then 40
  else if r.geQ 15 then 30
  else if r.geQ 10 then 20
  else if r.gtQ 0 then 10 else 0

/-- Overspending points (source lines 431-438). -/
def overspendPoints (o t : ℕ) : ℕ :=
  if o = 0 then 30
  else if (o : ℚ) ≤ (t : ℚ) * 0.2 then 20
  else if (o : ℚ) ≤ (t : ℚ) * 0.4 then 10 else 0

/-- Savings-consistency points (source lines 440-445). -/
def consistencyPoints (c : ℚ) : ℕ :=
  if 0.7 < c then 30 else if 0.5 < c then 20 else if 0.3 < c then 10 else 0

/-- Result of `_diagnose_budgeting`. `avg_savings_rate` is a float that
can be NaN when the aligned savings series is all-NaN, hence `PF`. -/
structure BudgetingResult where
  score : ℕ
  status : String
  dataAvailable : Bool
  avgSavingsRate : Option PF
  overspendingMonths : Option ℕ
  savingsConsistency : Option ℚ
deriving DecidableEq

/-- `_diagnose_budgeting` (source lines 394-456). The guard on the
consistency term is Python `mean != 0`, which is True for a NaN mean;
`max(0, min(1, x))` then clamps, and CPython's `min(1, nan)` is 1, so the
recorded consistency is always a finite rational in [0, 1]. -/
def diagnoseBudgeting (txs : List Tx) : BudgetingResult × List String × List String :=
  let incomeDf := txs.filter (fun t => t.txType == "income")
  let expenseDf := txs.filter (fun t => t.txType == "expense")
  if incomeDf.length = 0 ∨ expenseDf.length = 0 then
    (⟨50, "unknown", false, none, none, none⟩, [], [])
  else
    let monthlyIncome := monthlyVals incomeDf
    let monthlySavings := alignedSub (monthlySums incomeDf) (monthlySums expenseDf)
    let incomeMean := listMean monthlyIncome
    let savMean := pmeanPF monthlySavings
    let avgSavingsRate : PF :=
      if 0 < incomeMean then (savMean.divQ incomeMean).mulQ 100 else PF.fin 0
    let savingsConsistency : ℚ :=
      pyMaxZero (pyMinOne
        (if savMean.neQ 0 then PF.oneSub ((pstdPF monthlySavings).divPF savMean)
         else PF.fin 0))
    let overspendingMonths := (monthlySavings.filter (fun s => s.ltQ 0)).length
    let totalMonths := monthlySavings.length
    let r1 : List String :=
      if avgSavingsRate.gtQ 0 then []
      else ["Negative savings rate: " ++ pfFormatFixed 1 avgSavingsRate ++ "%"]
    let r2 : List String :=
      if (totalMonths : ℚ) * 0.4 < (overspendingMonths : ℚ) then
        ["Frequent overspending: " ++ toString overspendingMonths ++ "/" ++
         toString totalMonths ++ " months"]
      else []
    let score := savingsRatePoints avgSavingsRate +
                 overspendPoints overspendingMonths totalMonths +
                 consistencyPoints savingsConsistency
    (⟨score, statusLadder score, true, some avgSavingsRate, some overspendingMonths,
      some savingsConsistency⟩, [], r1 ++ r2)

/-- Keyword list for credit-card activity (source line 462). -/
def creditKeywords : List String :=
  ["credit card", "cc payment", "visa", "mastercard", "amex"]

/-- Card-payment-to-income points (source lines 488-495). -/
def ccRatioPoints (r : ℚ) : ℕ :=
  if r < 0.1 then 30 else if r < 0.2 then 20 else if r < 0.3 then 10 else 0

/-- Regular-payment points (source lines 498-499). -/
def ccRegularPoints (months : ℕ) : ℕ := if 3 ≤ months then 20 else 0

/-- Result of `_diagnose_credit`. -/
structure CreditResult where
  score : ℕ
  status : String
  dataAvailable : Bool
  needsQuestionnaire : Bool
  avgMonthlyCcPayment : Option ℚ
  ccToIncomeRatio : Option ℚ
deriving DecidableEq

/-- `_diagnose_credit` (source lines 458-508). -/
def diagnoseCredit (txs : List Tx) : CreditResult × List String × List String :=
  let creditTxns := txs.filter (fun t => matchesAny creditKeywords t.description)
  if creditTxns.length = 0 then
    (⟨60, "unknown", false, true, none, none⟩,
     ["No credit card activity detected - unable to assess credit health"], [])
  else
    let monthlyCc := monthlyVals creditTxns
    let avgCcPayment := listMean monthlyCc
    let incomeDf := txs.filter (fun t => t.txType == "income")
    let avgIncome := if 0 < incomeDf.length then listMean (monthlyVals incomeDf) else 1
    let ccToIncome := if 0 < avgIncome then avgCcPayment / avgIncome else 0
    let r1 : List String :=
      if 0.3 ≤ ccToIncome then
        ["High credit card usage: " ++ formatFixed 0 (ccToIncome * 100) ++ "% of income"]
      else []
    let score := 50 + ccRatioPoints ccToIncome + ccRegularPoints monthlyCc.length
    (⟨score, "fair", true, true, some avgCcPayment, some ccToIncome⟩, [], r1)

/-- Keyword list for tax activity (source line 513). -/
def taxKeywords : List String :=
  ["tax", "irs", "hmrc", "revenue", "withholding", "refund"]

/-- Tax-payment presence points (source lines 542-543). -/
def taxPaymentPoints (payments : ℕ) : ℕ := if 0 < payments then 20 else 0

/-- Effective-tax-rate band points (source lines 544-545). -/
def taxRatePoints (r : ℚ) : ℕ := if 0 < r ∧ r < 0.4 then 10 else 0

/-- Result of `_diagnose_taxes`; the compliant branch's dict lacks the
`needs_questionnaire` key, hence the `Option Bool`. -/
structure TaxResult where
  score : ℕ
  status : String
  dataAvailable : Bool
  needsQuestionnaire : Option Bool
  totalTaxPaid : Option ℚ
  totalRefunds : Option ℚ
  effectiveTaxRate : Option ℚ
deriving DecidableEq

/-- `_diagnose_taxes` (source lines 510-554). -/
def diagnoseTaxes (txs : List Tx) : TaxResult × List String × List String :=
  let taxTxns := txs.filter (fun t => matchesAny taxKeywords t.description)
  if taxTxns.length = 0 then
    (⟨60, "unknown", false, some true, none, none, none⟩,
     ["No tax-related transactions detected - please verify your tax compliance"], [])
  else
    let taxPayments := taxTxns.filter (fun t => t.txType == "expense")
    let taxRefunds := taxTxns.filter (fun t => t.txType == "income")
    let totalTaxPaid := if 0 < taxPayments.length then listSum (taxPayments.map Tx.amount) else 0
    let totalRefunds := if 0 < taxRefunds.length then listSum (taxRefunds.map Tx.amount) else 0
    let incomeDf := txs.filter (fun t => t.txType == "income")
    let totalIncome := if 0 < incomeDf.length then listSum (incomeDf.map Tx.amount) else 1
    let effectiveTaxRate :=
      if 0 < totalIncome then (totalTaxPaid - totalRefunds) / totalIncome else 0
    let score := 70 + taxPaymentPoints taxPayments.length + taxRatePoints effectiveTaxRate
    (⟨score, "compliant", true, none, some totalTaxPaid, some totalRefunds,
      some (effectiveTaxRate * 100)⟩, [], [])

/-- Spending-discipline points by expense volatility (source lines
581-586); a NaN volatility passes no comparison and scores 0. -/
def volatilityPoints (v : PF) : ℕ :=
  if v.ltQ 0.2 then 30 else if v.ltQ 0.4 then 20 else if v.ltQ 0.6 then 10 else 0

/-- Savings-discipline points (source lines 589-597). -/
def disciplinePoints (d : ℚ) : ℕ :=
  if 0.9 ≤ d then 40
  else if 0.75 ≤ d then 30
  else if 0.5 ≤ d then 20
  else if 0 < d then 10 else 0

/-- Transaction-awareness points (source lines 600-605). -/
def txFrequencyPoints (a : ℚ) : ℕ :=
  if a < 100 then 30 else if a < 200 then 20 else if a < 300 then 10 else 0

/-- Result of `_diagnose_behavior`. `expense_volatility` is a float that
is NaN with a single expense month, hence `PF`; the transaction count is
truncated with Python `int(...)` from a nonnegative average, i.e. the
floor. -/
structure BehaviorResult where
  score : ℕ
  status : String
  expenseVolatility : PF
  savingsDiscipline : ℚ
  avgTransactionsPerMonth : ℤ
  dataAvailable : Bool
deriving DecidableEq

/-- `_diagnose_behavior` (source lines 556-616). -/
def diagnoseBehavior (txs : List Tx) : BehaviorResult × List String × List String :=
  let expenseDf := txs.filter (fun t => t.txType == "expense")
  let monthlyExpenses := monthlySums expenseDf
  let mev := monthlyExpenses.map Prod.snd
  let expenseVolatility : PF :=
    if 0 < mev.length ∧ 0 < listMean mev then (pstd mev).divQ (listMean mev)
    else PF.fin 0
  let incomeDf := txs.filter (fun t => t.txType == "income")
  let monthlySavings := alignedSub (monthlySums incomeDf) monthlyExpenses
  let positiveSavingsMonths :=
    if 0 < monthlySavings.length then (monthlySavings.filter (fun s => s.gtQ 0)).length
    else 0
  let totalMonths := if 0 < monthlySavings.length then monthlySavings.length else 1
  let avgTxPerMonth : ℚ :=
    if 0 < totalMonths then (txs.length : ℚ) / (totalMonths : ℚ) else 0
  let savingsDiscipline : ℚ :=
    if 0 < totalMonths then (positiveSavingsMonths : ℚ) / (totalMonths : ℚ) else 0
  let score := volatilityPoints expenseVolatility + disciplinePoints savingsDiscipline +
               txFrequencyPoints avgTxPerMonth
  (⟨score, statusLadder score, expenseVolatility, savingsDiscipline,
    Int.floor avgTxPerMonth, true⟩, [], [])

/-- The diagnostics mapping built by `run_full_diagnostic`: the ten
category results under their dict keys. -/
structure Diagnostics where
  income : IncomeResult
  expenses : ExpensesResult
  debtLiabilities : DebtResult
  assetsInvestments : AssetsResult
  insurance : InsuranceResult
  financialGoals : GoalsResult
  budgeting : BudgetingResult
  creditHealth : CreditResult
  taxSituation : TaxResult
  financialBehavior : BehaviorResult
deriving DecidableEq

/-- `self.diagnostics.get(category, {}).get('score', 0)` (source line
635): the score under a category key, absent for any other key. -/
def Diagnostics.scoreOf (d : Diagnostics) (c : String) : Option ℚ :=
  if c = "income" then some d.income.score
  else if c = "expenses" then some d.expenses.score
  else if c = "debt_liabilities" then some d.debtLiabilities.score
  else if c = "assets_investments" then some d.assetsInvestments.score
  else if c = "insurance" then some d.insurance.score
  else if c = "financial_goals" then some d.financialGoals.score
  else if c = "budgeting" then some d.budgeting.score
  else if c = "credit_health" then some d.creditHealth.score
  else if c = "tax_situation" then some d.taxSituation.score
  else if c = "financial_behavior" then some d.financialBehavior.score
  else none

/-- The fixed category weights of `_calculate_overall_score` (source lines
620-631), in the source's iteration order. -/
def weights : List (String × ℚ) :=
  [("income", 0.15), ("expenses", 0.10), ("debt_liabilities", 0.15),
   ("assets_investments", 0.15), ("insurance", 0.05), ("financial_goals", 0.05),
   ("budgeting", 0.15), ("credit_health", 0.10), ("tax_situation", 0.05),
   ("financial_behavior", 0.05)]

/-- `_calculate_overall_score` (source lines 618-638), abstracted over the
score lookup: accumulate score times weight over the weight table, a
missing category contributing its default 0, then round to one decimal. -/
def calculateOverallScore (getScore : String → Option ℚ) : ℚ :=
  pyRound1 (weights.foldl (fun acc p => acc + ((getScore p.1).getD 0) * p.2) 0)

/-- `_get_grade` (source lines 640-665). -/
def getGrade (score : ℚ) : String :=
  if 90 ≤ score then "A+"
  else if 85 ≤ score then "A"
  else if 80 ≤ score then "A-"
  else if 75 ≤ score then "B+"
  else if 70 ≤ score then "B"
  else if 65 ≤ score then "B-"
  else if 60 ≤ score then "C+"
  else if 55 ≤ score then "C"
  else if 50 ≤ score then "C-"
  else if 45 ≤ score then "D+"
  else if 40 ≤ score then "D"
  else "F"

/-- One recommendation item of `_generate_recommendations`. -/
structure Recommendation where
  category : String
  priority : String
  action : String
  impact : String
deriving DecidableEq

/-- `_generate_recommendations` (source lines 667-715). The loop visits
the diagnostics dict in insertion order (income, expenses, debt, assets,
insurance, goals, budgeting, credit, tax, behavior); each rule reads its
ratio with `data.get(key, 0)`, so a key the no-data branch omitted reads
as 0, and the budgeting rate is a float compared with `< 10`, which is
False for NaN. -/
def generateRecommendations (d : Diagnostics) : List Recommendation :=
  (if d.income.score < 60 then
    [⟨"Income", "high", "Diversify income sources or seek opportunities for income growth",
      "Increase financial stability and growth potential"⟩]
   else []) ++
  (if 0.9 < (d.expenses.expenseRatio.getD 0) then
    [⟨"Expenses", "high", "Reduce discretionary spending - aim for 70-80% expense-to-income ratio",
      "Could save €" ++ formatFixed 2 ((d.expenses.avgMonthlyExpenses.getD 0) * 0.2) ++ "/month"⟩]
   else []) ++
  (if 0.36 < (d.debtLiabilities.debtToIncome.getD 0) then
    [⟨"Debt", "critical", "Create aggressive debt paydown plan - consider debt consolidation",
      "Improve credit score and free up monthly cash flow"⟩]
   else []) ++
  (if d.assetsInvestments.emergencyFundMonths < 3 then
    [⟨"Emergency Fund", "high", "Build emergency fund to cover 3-6 months of expenses",
      "Provide financial security against unexpected events"⟩]
   else []) ++
  (if (d.budgeting.avgSavingsRate.getD (PF.fin 0)).ltQ 10 then
    [⟨"Savings", "high", "Aim to save at least 15-20% of income monthly",
      "Build wealth and achieve financial goals faster"⟩]
   else [])

/-- One questionnaire item of `_generate_questionnaire`; `options` is
absent from the dicts of text and yes/no questions. -/
structure Question where
  id : String
  category : String
  question : String
  qtype : String
  options : Option (List String)
  required : Bool
deriving DecidableEq

/-- The insurance-coverage question (source lines 723-730). -/
def insuranceCoverageQ : Question :=
  ⟨"insurance_coverage", "Insurance",
   "What types of insurance coverage do you currently have?", "multiple_choice",
   some ["Health", "Life", "Disability", "Home/Renters", "Auto", "None"], true⟩

/-- The goals question emitted for a goals gap (source lines 733-739). -/
def financialGoalsQ : Question :=
  ⟨"financial_goals", "Goals",
   "What are your top 3 financial goals for the next 5 years?", "text", none, true⟩

/-- The risk-tolerance question (source lines 740-747). -/
def riskToleranceQ : Question :=
  ⟨"risk_tolerance", "Investments",
   "How comfortable are you with investment risk?", "single_choice",
   some ["Very Conservative", "Conservative", "Moderate", "Aggressive", "Very Aggressive"],
   true⟩

/-- The debt-confirmation question (source lines 750-756). -/
def debtConfirmationQ : Question :=
  ⟨"debt_confirmation", "Debt",
   "Do you currently have any outstanding loans or credit card debt?", "yes_no", none, true⟩

/-- The credit-score question (source lines 759-766). -/
def creditScoreQ : Question :=
  ⟨"credit_score", "Credit",
   "What is your approximate credit score?", "single_choice",
   some ["Excellent (750+)", "Good (700-749)", "Fair (650-699)", "Poor (600-649)",
         "Very Poor (<600)", "Unknown"], false⟩

/-- The fallback goals question appended when the profile has no goals and
no goals question was already added (source lines 771-777); its text
differs from `financialGoalsQ`. -/
def fallbackGoalsQ : Question :=
  ⟨"financial_goals", "Goals", "What are your top 3 financial goals?", "text", none, true⟩

/-- The questions one gap string triggers, in the source's appending order
inside the loop body: substring tests on the lower-cased gap text. -/
def questionsForGap (gap : String) : List Question :=
  (if lowerHas gap "insurance" then [insuranceCoverageQ] else []) ++
  (if lowerHas gap "goals" || lowerHas gap "goal" then [financialGoalsQ, riskToleranceQ]
   else []) ++
  (if lowerHas gap "debt" && lowerHas gap "no debt" then [debtConfirmationQ] else []) ++
  (if lowerHas gap "credit" then [creditScoreQ] else [])

/-- `_generate_questionnaire` (source lines 717-779): one pass over the
recorded gaps, then the fallback goals question when the user profile
supplied no goals and none of the emitted questions is the goals
question. -/
def generateQuestionnaire (gaps : List String) (userGoals : List String) : List Question :=
  let qs := (gaps.map questionsForGap).flatten
  if userGoals.length = 0 ∧ ¬ (qs.any (fun q => q.id == "financial_goals")) then
    qs ++ [fallbackGoalsQ]
  else qs

/-- The ten classifier results over a prepared transaction set (the
assignments of source lines 35-44). -/
def buildDiagnostics (txs : List Tx) (accounts : List Account) (userGoals : List String) :
    Diagnostics :=
  ⟨(diagnoseIncome txs).1, (diagnoseExpenses txs).1, (diagnoseDebt txs).1,
   (diagnoseAssets txs accounts).1, (diagnoseInsurance txs).1,
   (diagnoseGoals txs userGoals).1, (diagnoseBudgeting txs).1, (diagnoseCredit txs).1,
   (diagnoseTaxes txs).1, (diagnoseBehavior txs).1⟩

/-- The gap list of a full run: the source mutates `self.gaps` while the
classifiers run in their fixed order, which concatenates each classifier's
gap entries in execution order. -/
def allGaps (txs : List Tx) (accounts : List Account) (userGoals : List String) :
    List String :=
  (diagnoseIncome txs).2.1 ++ (diagnoseExpenses txs).2.1 ++ (diagnoseDebt txs).2.1 ++
  (diagnoseAssets txs accounts).2.1 ++ (diagnoseInsurance txs).2.1 ++
  (diagnoseGoals txs userGoals).2.1 ++ (diagnoseBudgeting txs).2.1 ++
  (diagnoseCredit txs).2.1 ++ (diagnoseTaxes txs).2.1 ++ (diagnoseBehavior txs).2.1

/-- The risk list of a full run, by the same ordering rule as the gaps. -/
def allRisks (txs : List Tx) (accounts : List Account) (userGoals : List String) :
    List String :=
  (diagnoseIncome txs).2.2 ++ (diagnoseExpenses txs).2.2 ++ (diagnoseDebt txs).2.2 ++
  (diagnoseAssets txs accounts).2.2 ++ (diagnoseInsurance txs).2.2 ++
  (diagnoseGoals txs userGoals).2.2 ++ (diagnoseBudgeting txs).2.2 ++
  (diagnoseCredit txs).2.2 ++ (diagnoseTaxes txs).2.2 ++ (diagnoseBehavior txs).2.2

/-- The nested result structure `run_full_diagnostic` returns. -/
structure DiagnosticReport where
  diagnostics : Diagnostics
  overallScore : ℚ
  grade : String
  gaps : List String
  risks : List String
  recommendations : List Recommendation
  questionnaire : List Question
deriving DecidableEq

/-- `run_full_diagnostic` (source lines 28-63): prepare the data, run the
ten classifiers in order while collecting gaps and risks, aggregate the
weighted overall score, grade it, and derive recommendations and the
questionnaire. -/
def runFullDiagnostic (rows : List RawTx) (accounts : List Account)
    (userGoals : List String) : DiagnosticReport :=
  let txs := prepareData rows
  let diags := buildDiagnostics txs accounts userGoals
  let overall := calculateOverallScore diags.scoreOf
  ⟨diags, overall, getGrade overall, allGaps txs accounts userGoals,
   allRisks txs accounts userGoals, generateRecommendations diags,
   generateQuestionnaire (allGaps txs accounts userGoals) userGoals⟩

/-- The position of a letter grade on the grade ladder, F lowest and A+
highest; used to state that a higher score never maps to a lower grade. -/
def gradeRank (g : String) : ℕ :=
  if g = "F" then 0 else if g = "D" then 1 else if g = "D+" then 2
  else if g = "C-" then 3 else if g = "C" then 4 else if g = "C+" then 5
  else if g = "B-" then 6 else if g = "B" then 7 else if g = "B+" then 8
  else if g = "A-" then 9 else if g = "A" then 10 else 11

/-- The aggregation contract as the specification words it: the sum over
the ten fixed categories of sub-score times weight — income 0.15,
expenses 0.10, debt 0.15, assets 0.15, insurance 0.05, goals 0.05,
budgeting 0.15, credit 0.10, tax 0.05, behavior 0.05 — a missing category
contributing 0 with the weights unrenormalized, rounded to one decimal. -/
def specOverallScore (f : String → Option ℚ) : ℚ :=
  pyRound1 (((f "income").getD 0) * 0.15 + ((f "expenses").getD 0) * 0.10 +
    ((f "debt_liabilities").getD 0) * 0.15 + ((f "assets_investments").getD 0) * 0.15 +
    ((f "insurance").getD 0) * 0.05 + ((f "financial_goals").getD 0) * 0.05 +
    ((f "budgeting").getD 0) * 0.15 + ((f "credit_health").getD 0) * 0.10 +
    ((f "tax_situation").getD 0) * 0.05 + ((f "financial_behavior").getD 0) * 0.05)

/-- A raw row whose `type` is written `"Income"` with a capital letter and
whose `category` is missing. -/
def mixedCaseRow : RawTx := ⟨some ⟨2024, 2, 1⟩, some 50, "Income", none, some "pay"⟩

/-- An input with exactly one income transaction, so that the income
classifier sees a single month of data and pandas takes a sample standard
deviation over one observation. -/
def singleIncomeRow : RawTx :=
  ⟨some ⟨2024, 1, 15⟩, some 1000, "income", some "Salary", some "Employer payroll"⟩

/-- Three months, each with total income 1000 and total expenses 700. -/
def threeMonthBudgetRows : List RawTx :=
  [⟨some ⟨2024, 1, 5⟩, some 1000, "income", some "Salary", some "Employer"⟩,
   ⟨some ⟨2024, 1, 20⟩, some 700, "expense", some "Housing", some "Rent"⟩,
   ⟨some ⟨2024, 2, 5⟩, some 1000, "income", some "Salary", some "Employer"⟩,
   ⟨some ⟨2024, 2, 20⟩, some 700, "expense", some "Housing", some "Rent"⟩,
   ⟨some ⟨2024, 3, 5⟩, some 1000, "income", some "Salary", some "Employer"⟩,
   ⟨some ⟨2024, 3, 20⟩, some 700, "expense", some "Housing", some "Rent"⟩]

/-- Band characterization of `_get_grade`: every score falls in exactly
one of the twelve threshold bands, with the grade of that band. -/
theorem getGrade_bands (s : ℚ) :
    (getGrade s = "A+" ∧ 90 ≤ s) ∨
    (getGrade s = "A" ∧ 85 ≤ s ∧ s < 90) ∨
    (getGrade s = "A-" ∧ 80 ≤ s ∧ s < 85) ∨
    (getGrade s = "B+" ∧ 75 ≤ s ∧ s < 80) ∨
    (getGrade s = "B" ∧ 70 ≤ s ∧ s < 75) ∨
    (getGrade s = "B-" ∧ 65 ≤ s ∧ s < 70) ∨
    (getGrade s = "C+" ∧ 60 ≤ s ∧ s < 65) ∨
    (getGrade s = "C" ∧ 55 ≤ s ∧ s < 60) ∨
    (getGrade s = "C-" ∧ 50 ≤ s ∧ s < 55) ∨
    (getGrade s = "D+" ∧ 45 ≤ s ∧ s < 50) ∨
    (getGrade s = "D" ∧ 40 ≤ s ∧ s < 45) ∨
    (getGrade s = "F" ∧ s < 40) := by
  unfold getGrade
  rcases le_or_lt 90 s with h90 | h90
  · exact Or.inl ⟨if_pos h90, h90⟩
  rw [if_neg (not_le.mpr h90)]
  rcases le_or_lt 85 s with h85 | h85
  · exact Or.inr (Or.inl ⟨if_pos h85, h85, h90⟩)
  rw [if_neg (not_le.mpr h85)]
  rcases le_or_lt 80 s with h80 | h80
  · exact Or.inr (Or.inr (Or.inl ⟨if_pos h80, h80, h85⟩))
  rw [if_neg (not_le.mpr h80)]
  rcases le_or_lt 75 s with h75 | h75
  · exact Or.inr (Or.inr (Or.inr (Or.inl ⟨if_pos h75, h75, h80⟩)))
  rw [if_neg (not_le.mpr h75)]
  rcases le_or_lt 70 s with h70 | h70
  · exact Or.inr (Or.inr (Or.inr (Or.inr (Or.inl ⟨if_pos h70, h70, h75⟩))))
  rw [if_neg (not_le.mpr h70)]
  rcases le_or_lt 65 s with h65 | h65
  · exact Or.inr (Or.inr (Or.inr (Or.inr (Or.inr (Or.inl ⟨if_pos h65, h65, h70⟩)))))
  rw [if_neg (not_le.mpr h65)]
  rcases le_or_lt 60 s with h60 | h60
  · exact Or.inr (Or.inr (Or.inr (Or.inr (Or.inr (Or.inr (Or.inl ⟨if_pos h60, h60, h65⟩))))))
  rw [if_neg (not_le.mpr h60)]
  rcases le_or_lt 55 s with h55 | h55
  · exact Or.inr (Or.inr (Or.inr (Or.inr (Or.inr (Or.inr (Or.inr
      (Or.inl ⟨if_pos h55, h55, h60⟩)))))))
  rw [if_neg (not_le.mpr h55)]
  rcases le_or_lt 50 s with h50 | h50
  · exact Or.inr (Or.inr (Or.inr (Or.inr (Or.inr (Or.inr (Or.inr (Or.inr
      (Or.inl ⟨if_pos h50, h50, h55⟩))))))))
  rw [if_neg (not_le.mpr h50)]
  rcases le_or_lt 45 s with h45 | h45
  · exact Or.inr (Or.inr (Or.inr (Or.inr (Or.inr (Or.inr (Or.inr (Or.inr (Or.inr
      (Or.inl ⟨if_pos h45, h45, h50⟩)))))))))
  rw [if_neg (not_le.mpr h45)]
  rcases le_or_lt 40 s with h40 | h40
  · exact Or.inr (Or.inr (Or.inr (Or.inr (Or.inr (Or.inr (Or.inr (Or.inr (Or.inr (Or.inr
      (Or.inl ⟨if_pos h40, h40, h45⟩))))))))))
  rw [if_neg (not_le.mpr h40)]
  exact Or.inr (Or.inr (Or.inr (Or.inr (Or.inr (Or.inr (Or.inr (Or.inr (Or.inr (Or.inr
    (Or.inr ⟨rfl, h40⟩))))))))))

theorem incomeLevelPoints_le (a : ℚ) : incomeLevelPoints a ≤ 30 := by
  unfold incomeLevelPoints; split_ifs <;> omega

theorem incomeStabilityPoints_le (st : PF) : incomeStabilityPoints st ≤ 30 := by
  unfold incomeStabilityPoints; split_ifs <;> omega

theorem dependencyPoints_le (d : ℚ) : dependencyPoints d ≤ 20 := by
  unfold dependencyPoints; split_ifs <;> omega

theorem incomeGrowthPoints_le (m : List ℚ) : incomeGrowthPoints m ≤ 20 := by
  unfold incomeGrowthPoints; split_ifs <;> omega

theorem expenseRatioPoints_le (r : ℚ) : expenseRatioPoints r ≤ 40 := by
  unfold expenseRatioPoints; split_ifs <;> omega

theorem essentialRatioPoints_le (e : ℚ) : essentialRatioPoints e ≤ 30 := by
  unfold essentialRatioPoints; split_ifs <;> omega

theorem expenseTrend_le (m : List ℚ) : expenseTrend m ≤ 30 := by
  unfold expenseTrend; dsimp only; split_ifs <;> omega

theorem debtScorePoints_le (d : ℚ) : debtScorePoints d ≤ 100 := by
  unfold debtScorePoints; split_ifs <;> omega

theorem emergencyFundPoints_le (m : ℚ) : emergencyFundPoints m ≤ 40 := by
  unfold emergencyFundPoints; split_ifs <;> omega

theorem investmentPoints_le (b : Bool) (r : ℚ) : investmentPoints b r ≤ 50 := by
  unfold investmentPoints; split_ifs <;> omega

theorem assetIncomePoints_le (r : ℚ) : assetIncomePoints r ≤ 10 := by
  unfold assetIncomePoints; split_ifs <;> omega

theorem insuranceTypesPoints_le (n : ℕ) : insuranceTypesPoints n ≤ 20 := by
  unfold insuranceTypesPoints; split_ifs <;> omega

theorem insuranceRatioPoints_le (r : ℚ) : insuranceRatioPoints r ≤ 30 := by
  unfold insuranceRatioPoints; split_ifs <;> omega

theorem goalsSavingsBonus_le (txs : List Tx) : goalsSavingsBonus txs ≤ 40 := by
  unfold goalsSavingsBonus; dsimp only; split_ifs <;> omega

theorem savingsRatePoints_le (r : PF) : savingsRatePoints r ≤ 40 := by
  unfold savingsRatePoints; split_ifs <;> omega

theorem overspendPoints_le (o t : ℕ) : overspendPoints o t ≤ 30 := by
  unfold overspendPoints; split_ifs <;> omega

theorem consistencyPoints_le (c : ℚ) : consistencyPoints c ≤ 30 := by
  unfold consistencyPoints; split_ifs <;> omega

theorem ccRatioPoints_le (r : ℚ) : ccRatioPoints r ≤ 30 := by
  unfold ccRatioPoints; split_ifs <;> omega

theorem ccRegularPoints_le (n : ℕ) : ccRegularPoints n ≤ 20 := by
  unfold ccRegularPoints; split_ifs <;> omega

theorem taxPaymentPoints_le (n : ℕ) : taxPaymentPoints n ≤ 20 := by
  unfold taxPaymentPoints; split_ifs <;> omega

theorem taxRatePoints_le (r : ℚ) : taxRatePoints r ≤ 10 := by
  unfold taxRatePoints; split_ifs <;> omega

theorem volatilityPoints_le (v : PF) : volatilityPoints v ≤ 30 := by
  unfold volatilityPoints; split_ifs <;> omega

theorem disciplinePoints_le (d : ℚ) : disciplinePoints d ≤ 40 := by
  unfold disciplinePoints; split_ifs <;> omega

theorem txFrequencyPoints_le (a : ℚ) : txFrequencyPoints a ≤ 30 := by
  unfold txFrequencyPoints; split_ifs <;> omega

theorem diagnoseIncome_score_le (txs : List Tx) : (diagnoseIncome txs).1.score ≤ 100 := by
  unfold diagnoseIncome
  dsimp only
  split
  · exact (by omega : (0 : ℕ) ≤ 100)
  · exact min_le_right _ _

theorem diagnoseExpenses_score_le (txs : List Tx) : (diagnoseExpenses txs).1.score ≤ 100 := by
  unfold diagnoseExpenses
  dsimp only
  split
  · exact (by omega : (50 : ℕ) ≤ 100)
  · exact le_trans
      (Nat.add_le_add (Nat.add_le_add (expenseRatioPoints_le _) (essentialRatioPoints_le _))
        (expenseTrend_le _)) (by omega)

theorem diagnoseDebt_score_le (txs : List Tx) : (diagnoseDebt txs).1.score ≤ 100 := by
  unfold diagnoseDebt
  dsimp only
  split
  · exact (by omega : (70 : ℕ) ≤ 100)
  · exact debtScorePoints_le _

theorem diagnoseAssets_score_le (txs : List Tx) (accounts : List Account) :
    (diagnoseAssets txs accounts).1.score ≤ 100 := by
  unfold diagnoseAssets
  dsimp only
  exact le_trans
    (Nat.add_le_add (Nat.add_le_add (emergencyFundPoints_le _) (investmentPoints_le _ _))
      (assetIncomePoints_le _)) (by omega)

theorem diagnoseInsurance_score_le (txs : List Tx) : (diagnoseInsurance txs).1.score ≤ 100 := by
  unfold diagnoseInsurance
  dsimp only
  split
  · exact (by omega : (30 : ℕ) ≤ 100)
  · exact le_trans
      (Nat.add_le_add (Nat.add_le_add (le_refl 50) (insuranceTypesPoints_le _))
        (insuranceRatioPoints_le _)) (by omega)

theorem diagnoseGoals_score_le (txs : List Tx) (userGoals : List String) :
    (diagnoseGoals txs userGoals).1.score ≤ 100 := by
  unfold diagnoseGoals
  dsimp only
  split
  · exact (by omega : (40 : ℕ) ≤ 100)
  · exact le_trans (Nat.add_le_add (le_refl 60) (goalsSavingsBonus_le _)) (by omega)

theorem diagnoseBudgeting_score_le (txs : List Tx) : (diagnoseBudgeting txs).1.score ≤ 100 := by
  unfold diagnoseBudgeting
  dsimp only
  split
  · exact (by omega : (50 : ℕ) ≤ 100)
  · exact le_trans
      (Nat.add_le_add (Nat.add_le_add (savingsRatePoints_le _) (overspendPoints_le _ _))
        (consistencyPoints_le _)) (by omega)

theorem diagnoseCredit_score_le (txs : List Tx) : (diagnoseCredit txs).1.score ≤ 100 := by
  unfold diagnoseCredit
  dsimp only
  split
  · exact (by omega : (60 : ℕ) ≤ 100)
  · exact le_trans
      (Nat.add_le_add (Nat.add_le_add (le_refl 50) (ccRatioPoints_le _)) (ccRegularPoints_le _))
      (by omega)

theorem diagnoseTaxes_score_le (txs : List Tx) : (diagnoseTaxes txs).1.score ≤ 100 := by
  unfold diagnoseTaxes
  dsimp only
  split
  · exact (by omega : (60 : ℕ) ≤ 100)
  · exact le_trans
      (Nat.add_le_add (Nat.add_le_add (le_refl 70) (taxPaymentPoints_le _)) (taxRatePoints_le _))
      (by omega)

theorem diagnoseBehavior_score_le (txs : List Tx) : (diagnoseBehavior txs).1.score ≤ 100 := by
  unfold diagnoseBehavior
  dsimp only
  exact le_trans
    (Nat.add_le_add (Nat.add_le_add (volatilityPoints_le _) (disciplinePoints_le _))
      (txFrequencyPoints_le _)) (by omega)

theorem calcOverall_eq_spec (f : String → Option ℚ) :
    calculateOverallScore f = specOverallScore f := by
  unfold calculateOverallScore specOverallScore weights
  simp only [List.foldl_cons, List.foldl_nil]
  exact congrArg pyRound1 (by ring)

theorem scoreOf_explicit (d : Diagnostics) :
    specOverallScore d.scoreOf =
      pyRound1 ((d.income.score : ℚ) * 0.15 + (d.expenses.score : ℚ) * 0.10 +
        (d.debtLiabilities.score : ℚ) * 0.15 + (d.assetsInvestments.score : ℚ) * 0.15 +
        (d.insurance.score : ℚ) * 0.05 + (d.financialGoals.score : ℚ) * 0.05 +
        (d.budgeting.score : ℚ) * 0.15 + (d.creditHealth.score : ℚ) * 0.10 +
        (d.taxSituation.score : ℚ) * 0.05 + (d.financialBehavior.score : ℚ) * 0.05) := rfl

theorem roundHalfEven_le (q : ℚ) : (roundHalfEven q : ℚ) ≤ q + 1/2 := by
  unfold roundHalfEven
  have h1 := Int.floor_le q
  have h2 := Int.sub_one_lt_floor q
  dsimp only
  split_ifs <;> push_cast <;> linarith

theorem le_roundHalfEven (q : ℚ) : q - 1/2 ≤ (roundHalfEven q : ℚ) := by
  unfold roundHalfEven
  have h1 := Int.floor_le q
  have h2 := Int.sub_one_lt_floor q
  dsimp only
  split_ifs <;> push_cast <;> linarith

theorem pyRound1_bounds (q : ℚ) (h0 : 0 ≤ q) (h1 : q ≤ 100) :
    0 ≤ pyRound1 q ∧ pyRound1 q ≤ 100 := by
  unfold pyRound1
  have ha := roundHalfEven_le (10 * q)
  have hb := le_roundHalfEven (10 * q)
  have hn0 : (0 : ℚ) ≤ (roundHalfEven (10 * q) : ℚ) := by
    by_contra hc
    push_neg at hc
    have hz : roundHalfEven (10 * q) < 0 := by exact_mod_cast hc
    have hz1 : roundHalfEven (10 * q) + 1 ≤ 0 := Int.lt_iff_add_one_le.mp hz
    have : ((roundHalfEven (10 * q) + 1 : ℤ) : ℚ) ≤ 0 := by exact_mod_cast hz1
    push_cast at this
    linarith
  have hn1 : (roundHalfEven (10 * q) : ℚ) ≤ 1000 := by
    by_contra hc
    push_neg at hc
    have hz : (1000 : ℤ) < roundHalfEven (10 * q) := by exact_mod_cast hc
    have : (1001 : ℚ) ≤ (roundHalfEven (10 * q) : ℚ) := by
      exact_mod_cast Int.lt_iff_add_one_le.mp hz
    linarith
  constructor
  · exact div_nonneg hn0 (by norm_num)
  · rw [div_le_iff₀ (by norm_num : (0:ℚ) < 10)]
    linarith

theorem weightedTen_bounds (a b c d e f g h i j : ℚ)
    (ha : a ≤ 100) (hb : b ≤ 100) (hc : c ≤ 100) (hd : d ≤ 100) (he : e ≤ 100)
    (hf : f ≤ 100) (hg : g ≤ 100) (hh : h ≤ 100) (hi : i ≤ 100) (hj : j ≤ 100)
    (na : 0 ≤ a) (nb : 0 ≤ b) (nc : 0 ≤ c) (nd : 0 ≤ d) (ne : 0 ≤ e)
    (nf : 0 ≤ f) (ng : 0 ≤ g) (nh : 0 ≤ h) (ni : 0 ≤ i) (nj : 0 ≤ j) :
    0 ≤ pyRound1 (a * 0.15 + b * 0.10 + c * 0.15 + d * 0.15 + e * 0.05 + f * 0.05 +
      g * 0.15 + h * 0.10 + i * 0.05 + j * 0.05) ∧
    pyRound1 (a * 0.15 + b * 0.10 + c * 0.15 + d * 0.15 + e * 0.05 + f * 0.05 +
      g * 0.15 + h * 0.10 + i * 0.05 + j * 0.05) ≤ 100 :=
  pyRound1_bounds _ (by nlinarith) (by nlinarith)

theorem questionsForGap_mem_questionnaire (gaps : List String) (userGoals : List String)
    (g : String) (hg : g ∈ gaps) (q : Question) (hq : q ∈ questionsForGap g) :
    q ∈ generateQuestionnaire gaps userGoals := by
  unfold generateQuestionnaire
  have hmem : q ∈ (gaps.map questionsForGap).flatten :=
    List.mem_flatten.mpr ⟨questionsForGap g, List.mem_map_of_mem _ hg, hq⟩
  dsimp only
  split_ifs
  · exact List.mem_append_left _ hmem
  · exact hmem

/-- C1: for every diagnostic run, the overall score is the sum over the
ten fixed categories of sub-score times weight, with weights income 0.15,
expenses 0.10, debt 0.15, assets 0.15, insurance 0.05, goals 0.05,
budgeting 0.15, credit 0.10, tax 0.05, behavior 0.05, rounded to one
decimal place; a category missing from the diagnostics map contributes 0
and the weights are never renormalized (the first conjunct states this
for an arbitrary score lookup, where any category can be absent; the
second instantiates it for the score a full run produces). -/
theorem c1_overall_score_weighted_sum :
    (∀ f : String → Option ℚ, calculateOverallScore f = specOverallScore f) ∧
    ∀ (rows : List RawTx) (accounts : List Account) (userGoals : List String),
      (runFullDiagnostic rows accounts userGoals).overallScore =
        specOverallScore (buildDiagnostics (prepareData rows) accounts userGoals).scoreOf :=
  ⟨calcOverall_eq_spec, fun _ _ _ => calcOverall_eq_spec _⟩

/-- C2: the grade function is total and exhaustive on the twelve grades,
every score falls in exactly one band with the stated thresholds, a
higher score never maps to a lower grade, and in particular 84.9 maps to
A-, 85.0 to A, and 100 to A+. -/
theorem c2_grade_bands_total_monotone :
    (∀ s : ℚ, getGrade s ∈
      (["A+", "A", "A-", "B+", "B", "B-", "C+", "C", "C-", "D+", "D", "F"] : List String)) ∧
    (∀ s t : ℚ, s ≤ t → gradeRank (getGrade s) ≤ gradeRank (getGrade t)) ∧
    getGrade 84.9 = "A-" ∧ getGrade 85 = "A" ∧ getGrade (100 : ℚ) = "A+" := by
  refine ⟨fun s => ?_, fun s t hst => ?_, by with_unfolding_all decide,
    by with_unfolding_all decide, by with_unfolding_all decide⟩
  · rcases getGrade_bands s with ⟨e, -⟩ | ⟨e, -, -⟩ | ⟨e, -, -⟩ | ⟨e, -, -⟩ | ⟨e, -, -⟩ |
      ⟨e, -, -⟩ | ⟨e, -, -⟩ | ⟨e, -, -⟩ | ⟨e, -, -⟩ | ⟨e, -, -⟩ | ⟨e, -, -⟩ | ⟨e, -⟩ <;>
      rw [e] <;> decide
  · rcases getGrade_bands s with ⟨es, hs1⟩ | ⟨es, hs1, hs2⟩ | ⟨es, hs1, hs2⟩ | ⟨es, hs1, hs2⟩ |
      ⟨es, hs1, hs2⟩ | ⟨es, hs1, hs2⟩ | ⟨es, hs1, hs2⟩ | ⟨es, hs1, hs2⟩ | ⟨es, hs1, hs2⟩ |
      ⟨es, hs1, hs2⟩ | ⟨es, hs1, hs2⟩ | ⟨es, hs2⟩ <;>
    rcases getGrade_bands t with ⟨et, ht1⟩ | ⟨et, ht1, ht2⟩ | ⟨et, ht1, ht2⟩ | ⟨et, ht1, ht2⟩ |
      ⟨et, ht1, ht2⟩ | ⟨et, ht1, ht2⟩ | ⟨et, ht1, ht2⟩ | ⟨et, ht1, ht2⟩ | ⟨et, ht1, ht2⟩ |
      ⟨et, ht1, ht2⟩ | ⟨et, ht1, ht2⟩ | ⟨et, ht2⟩ <;>
    rw [es, et] <;> first | decide | linarith

/-- C2 witness: the monotonicity conjunct applied at the concrete scores
72 and 88. -/
theorem c2_grade_bands_witness : gradeRank (getGrade 72) ≤ gradeRank (getGrade 88) :=
  c2_grade_bands_total_monotone.2.1 72 88 (by norm_num)

/-- C3, failing input: on an input whose only transaction is a single
month of income, the income classifier reports data as available yet its
`stability` value is NaN — pandas takes the sample standard deviation of
one observation, which is NaN, and `1 - NaN/avg` propagates it into the
result of `run_full_diagnostic`, contradicting the requirement that no
NaN ever appears in the output. -/
theorem c3_income_stability_nan_single_month :
    (runFullDiagnostic [singleIncomeRow] [] []).diagnostics.income.dataAvailable = true ∧
    (runFullDiagnostic [singleIncomeRow] [] []).diagnostics.income.stability =
      some PF.nan := by
  with_unfolding_all decide

/-- C4 counterexample: the engine's normalizer (`_prepare_data`) keeps a
row whose `type` is `"Income"` with a capital letter unchanged and leaves
its missing `category` missing, so it neither lower-cases `type` nor
fills `category` with "Uncategorized" as the claim states. -/
theorem c4_normalizer_counterexample :
    (prepareData [mixedCaseRow]).map Tx.txType = ["Income"] ∧
    (prepareData [mixedCaseRow]).map Tx.category = [none] ∧
    ¬ (prepareData [mixedCaseRow]).map Tx.txType = ["income"] ∧
    ¬ (prepareData [mixedCaseRow]).map Tx.category = [some "Uncategorized"] := by
  with_unfolding_all decide

/-- C4 amended: the transaction normalizer used by the diagnostic engine
drops every row whose date fails to parse or whose amount is not numeric,
derives the calendar year+month bucket for every remaining row, and
passes `type`, `category` and `description` through unchanged: every
prepared row comes from an input row with a parsed date and numeric
amount and carries its fields verbatim with the derived month, and every
input row with a parsed date and numeric amount is kept. -/
theorem c4_normalizer_amended (rows : List RawTx) :
    (∀ t ∈ prepareData rows, t.month = monthIndex t.date ∧
       (⟨some t.date, some t.amount, t.txType, t.category, t.description⟩ : RawTx) ∈ rows) ∧
    (∀ r ∈ rows, ∀ d a, r.date = some d → r.amount = some a →
       (⟨d, monthIndex d, a, r.txType, r.category, r.description⟩ : Tx) ∈ prepareData rows) := by
  constructor
  · intro t ht
    obtain ⟨r, hr, heq⟩ := List.mem_filterMap.mp ht
    obtain ⟨rd, ra, rt, rc, rde⟩ := r
    cases rd with
    | none => simp at heq
    | some d =>
      cases ra with
      | none => simp at heq
      | some a =>
        simp only [Option.some.injEq] at heq
        subst heq
        exact ⟨rfl, hr⟩
  · intro r hr d a hd ha
    exact List.mem_filterMap.mpr ⟨r, hr, by simp [hd, ha]⟩

/-- C4 witness: the normalizer keeps a concrete row with a valid date and
amount, deriving its month and leaving the capitalized type unchanged. -/
theorem c4_normalizer_amended_witness :
    (⟨⟨2024, 1, 2⟩, monthIndex ⟨2024, 1, 2⟩, 5, "Expense", none, none⟩ : Tx) ∈
      prepareData [⟨some ⟨2024, 1, 2⟩, some 5, "Expense", none, none⟩] :=
  (c4_normalizer_amended [⟨some ⟨2024, 1, 2⟩, some 5, "Expense", none, none⟩]).2
    ⟨some ⟨2024, 1, 2⟩, some 5, "Expense", none, none⟩ (by simp) ⟨2024, 1, 2⟩ 5 rfl rfl

/-- C5: for every input table, account set and profile, the overall score
of `run_full_diagnostic` lies in [0, 100], and each of the ten classifier
sub-scores is at most 100 (they are naturals, hence also at least 0). -/
theorem c5_overall_score_in_range (rows : List RawTx) (accounts : List Account)
    (userGoals : List String) :
    0 ≤ (runFullDiagnostic rows accounts userGoals).overallScore ∧
    (runFullDiagnostic rows accounts userGoals).overallScore ≤ 100 ∧
    (runFullDiagnostic rows accounts userGoals).diagnostics.income.score ≤ 100 ∧
    (runFullDiagnostic rows accounts userGoals).diagnostics.expenses.score ≤ 100 ∧
    (runFullDiagnostic rows accounts userGoals).diagnostics.debtLiabilities.score ≤ 100 ∧
    (runFullDiagnostic rows accounts userGoals).diagnostics.assetsInvestments.score ≤ 100 ∧
    (runFullDiagnostic rows accounts userGoals).diagnostics.insurance.score ≤ 100 ∧
    (runFullDiagnostic rows accounts userGoals).diagnostics.financialGoals.score ≤ 100 ∧
    (runFullDiagnostic rows accounts userGoals).diagnostics.budgeting.score ≤ 100 ∧
    (runFullDiagnostic rows accounts userGoals).diagnostics.creditHealth.score ≤ 100 ∧
    (runFullDiagnostic rows accounts userGoals).diagnostics.taxSituation.score ≤ 100 ∧
    (runFullDiagnostic rows accounts userGoals).diagnostics.financialBehavior.score ≤ 100 := by
  have hI := diagnoseIncome_score_le (prepareData rows)
  have hE := diagnoseExpenses_score_le (prepareData rows)
  have hD := diagnoseDebt_score_le (prepareData rows)
  have hA := diagnoseAssets_score_le (prepareData rows) accounts
  have hN := diagnoseInsurance_score_le (prepareData rows)
  have hG := diagnoseGoals_score_le (prepareData rows) userGoals
  have hB := diagnoseBudgeting_score_le (prepareData rows)
  have hC := diagnoseCredit_score_le (prepareData rows)
  have hT := diagnoseTaxes_score_le (prepareData rows)
  have hV := diagnoseBehavior_score_le (prepareData rows)
  have hI2 : (((buildDiagnostics (prepareData rows) accounts userGoals).income.score : ℚ)) ≤
      100 := by exact_mod_cast hI
  have hE2 : (((buildDiagnostics (prepareData rows) accounts userGoals).expenses.score : ℚ)) ≤
      100 := by exact_mod_cast hE
  have hD2 :
      (((buildDiagnostics (prepareData rows) accounts userGoals).debtLiabilities.score : ℚ)) ≤
      100 := by exact_mod_cast hD
  have hA2 :
      (((buildDiagnostics (prepareData rows) accounts userGoals).assetsInvestments.score : ℚ)) ≤
      100 := by exact_mod_cast hA
  have hN2 : (((buildDiagnostics (prepareData rows) accounts userGoals).insurance.score : ℚ)) ≤
      100 := by exact_mod_cast hN
  have hG2 :
      (((buildDiagnostics (prepareData rows) accounts userGoals).financialGoals.score : ℚ)) ≤
      100 := by exact_mod_cast hG
  have hB2 : (((buildDiagnostics (prepareData rows) accounts userGoals).budgeting.score : ℚ)) ≤
      100 := by exact_mod_cast hB
  have hC2 :
      (((buildDiagnostics (prepareData rows) accounts userGoals).creditHealth.score : ℚ)) ≤
      100 := by exact_mod_cast hC
  have hT2 :
      (((buildDiagnostics (prepareData rows) accounts userGoals).taxSituation.score : ℚ)) ≤
      100 := by exact_mod_cast hT
  have hV2 :
      (((buildDiagnostics (prepareData rows) accounts userGoals).financialBehavior.score : ℚ)) ≤
      100 := by exact_mod_cast hV
  have heq : (runFullDiagnostic rows accounts userGoals).overallScore =
      pyRound1
        ((((buildDiagnostics (prepareData rows) accounts userGoals).income.score : ℚ)) * 0.15 +
        (((buildDiagnostics (prepareData rows) accounts userGoals).expenses.score : ℚ)) * 0.10 +
        (((buildDiagnostics (prepareData rows) accounts
            userGoals).debtLiabilities.score : ℚ)) * 0.15 +
        (((buildDiagnostics (prepareData rows) accounts
            userGoals).assetsInvestments.score : ℚ)) * 0.15 +
        (((buildDiagnostics (prepareData rows) accounts userGoals).insurance.score : ℚ)) * 0.05 +
        (((buildDiagnostics (prepareData rows) accounts
            userGoals).financialGoals.score : ℚ)) * 0.05 +
        (((buildDiagnostics (prepareData rows) accounts userGoals).budgeting.score : ℚ)) * 0.15 +
        (((buildDiagnostics (prepareData rows) accounts
            userGoals).creditHealth.score : ℚ)) * 0.10 +
        (((buildDiagnostics (prepareData rows) accounts
            userGoals).taxSituation.score : ℚ)) * 0.05 +
        (((buildDiagnostics (prepareData rows) accounts
            userGoals).financialBehavior.score : ℚ)) * 0.05) :=
    (calcOverall_eq_spec _).trans (scoreOf_explicit _)
  have hmain := weightedTen_bounds _ _ _ _ _ _ _ _ _ _ hI2 hE2 hD2 hA2 hN2 hG2 hB2 hC2 hT2 hV2
    (Nat.cast_nonneg _) (Nat.cast_nonneg _) (Nat.cast_nonneg _) (Nat.cast_nonneg _)
    (Nat.cast_nonneg _) (Nat.cast_nonneg _) (Nat.cast_nonneg _) (Nat.cast_nonneg _)
    (Nat.cast_nonneg _) (Nat.cast_nonneg _)
  refine ⟨?_, ?_, hI, hE, hD, hA, hN, hG, hB, hC, hT, hV⟩
  · rw [heq]; exact hmain.1
  · rw [heq]; exact hmain.2

/-- C6: when no transaction has type `income`, the income classifier
returns exactly score 0, status `critical` and no data, appending exactly
one gap entry, whose text mentions income, and no risk. -/
theorem c6_income_no_data_contract (txs : List Tx)
    (h : ∀ t ∈ txs, t.txType ≠ "income") :
    diagnoseIncome txs =
      (⟨0, "critical", false, none, none, none, none⟩,
       ["No income data found - unable to assess income stability"], []) ∧
    lowerHas "No income data found - unable to assess income stability" "income" = true := by
  have hf : txs.filter (fun t => t.txType == "income") = [] := by
    rw [List.filter_eq_nil_iff]
    intro t ht
    simpa using h t ht
  refine ⟨?_, by with_unfolding_all decide⟩
  unfold diagnoseIncome
  rw [hf]
  rfl

/-- C6 witness: the contract at a concrete input holding one expense
transaction and no income. -/
theorem c6_income_no_data_witness :
    diagnoseIncome [⟨⟨2024, 1, 1⟩, monthIndex ⟨2024, 1, 1⟩, 5, "expense", none, none⟩] =
      (⟨0, "critical", false, none, none, none, none⟩,
       ["No income data found - unable to assess income stability"], []) ∧
    lowerHas "No income data found - unable to assess income stability" "income" = true :=
  c6_income_no_data_contract _ (by with_unfolding_all decide)

set_option maxRecDepth 8000 in
/-- C7: when no transaction description matches a debt keyword, the debt
classifier returns exactly score 70, status `assumed_no_debt` and no
data, appending exactly one gap whose text names the no-debt reading and
asks the user to confirm, preserving the ambiguity between having no
debt and missing data. -/
theorem c7_debt_no_match_contract (txs : List Tx)
    (h : ∀ t ∈ txs, matchesAny debtKeywords t.description = false) :
    diagnoseDebt txs =
      (⟨70, "assumed_no_debt", false, none, none, none⟩, [debtGapText], []) ∧
    lowerHas debtGapText "no debt" = true ∧ lowerHas debtGapText "please confirm" = true := by
  have hf : txs.filter (fun t => matchesAny debtKeywords t.description) = [] := by
    rw [List.filter_eq_nil_iff]
    intro t ht
    exact fun hc => Bool.false_ne_true ((h t ht) ▸ hc)
  refine ⟨?_, by with_unfolding_all decide, by with_unfolding_all decide⟩
  unfold diagnoseDebt
  rw [hf]
  rfl

set_option maxRecDepth 8000 in
/-- C7 witness: the contract at a concrete input holding one grocery
transaction that matches no debt keyword. -/
theorem c7_debt_no_match_witness :
    diagnoseDebt [⟨⟨2024, 1, 1⟩, monthIndex ⟨2024, 1, 1⟩, 5, "expense", some "Food",
      some "groceries"⟩] =
      (⟨70, "assumed_no_debt", false, none, none, none⟩, [debtGapText], []) ∧
    lowerHas debtGapText "no debt" = true ∧ lowerHas debtGapText "please confirm" = true :=
  c7_debt_no_match_contract _ (by with_unfolding_all decide)

/-- C8 counterexample: with monthly expenses 100, 105, 105, 105 the
trailing-3-month average is 105 against a prior average of 100 — the
recent expenses did not shrink — yet the trend component awards the +30
bonus, because the source grants it whenever the recent average is below
1.1 times the prior average, not only when it shrank by more than 10%. -/
theorem c8_trend_counterexample :
    priorAvg [(100 : ℚ), 105, 105, 105] = 100 ∧
    trailing3Avg [(100 : ℚ), 105, 105, 105] = 105 ∧
    ¬ trailing3Avg [(100 : ℚ), 105, 105, 105] < priorAvg [(100 : ℚ), 105, 105, 105] ∧
    expenseTrend [(100 : ℚ), 105, 105, 105] = 30 := by
  with_unfolding_all decide

/-- C8 amended: with at least three months of expense data the trend
component adds +30 exactly when the trailing-3-month average is below 1.1
times the prior average, +15 exactly when it is at least 1.1 times but
below 1.2 times the prior average, and nothing exactly when it is at
least both 1.1 and 1.2 times the prior average (both bounds are needed:
they differ when the prior average is negative). -/
theorem c8_trend_amended (m : List ℚ) (h : 3 ≤ m.length) :
    (expenseTrend m = 30 ↔ trailing3Avg m < priorAvg m * 1.1) ∧
    (expenseTrend m = 15 ↔ priorAvg m * 1.1 ≤ trailing3Avg m ∧
       trailing3Avg m < priorAvg m * 1.2) ∧
    (expenseTrend m = 0 ↔ priorAvg m * 1.1 ≤ trailing3Avg m ∧
       priorAvg m * 1.2 ≤ trailing3Avg m) := by
  unfold expenseTrend
  rw [if_pos h]
  dsimp only
  split_ifs with h1 h2
  · exact ⟨⟨fun _ => h1, fun _ => rfl⟩,
      ⟨fun hx => absurd hx (by decide), fun hx => absurd h1 (not_lt.mpr hx.1)⟩,
      ⟨fun hx => absurd hx (by decide), fun hx => absurd h1 (not_lt.mpr hx.1)⟩⟩
  · exact ⟨⟨fun hx => absurd hx (by decide), fun hx => absurd hx h1⟩,
      ⟨fun _ => ⟨not_lt.mp h1, h2⟩, fun _ => rfl⟩,
      ⟨fun hx => absurd hx (by decide), fun hx => absurd h2 (not_lt.mpr hx.2)⟩⟩
  · exact ⟨⟨fun hx => absurd hx (by decide), fun hx => absurd hx h1⟩,
      ⟨fun hx => absurd hx (by decide), fun hx => absurd hx.2 h2⟩,
      ⟨fun _ => ⟨not_lt.mp h1, not_lt.mp h2⟩, fun _ => rfl⟩⟩

/-- C8 witness: the +30 characterization instantiated on the concrete
three-month series 100, 100, 100. -/
theorem c8_trend_amended_witness :
    expenseTrend [(100 : ℚ), 100, 100] = 30 ↔
      trailing3Avg [(100 : ℚ), 100, 100] < priorAvg [(100 : ℚ), 100, 100] * 1.1 :=
  (c8_trend_amended [(100 : ℚ), 100, 100] (by decide)).1

/-- C9: on three months of income 1000 and expenses 700 each, the
budgeting classifier computes a savings rate of 30 percent, zero
overspending months and savings consistency exactly 1, and returns score
100 with status `excellent` and no gap or risk; the three component
tiers contribute +40, +30 and +30. -/
theorem c9_budgeting_perfect_input :
    diagnoseBudgeting (prepareData threeMonthBudgetRows) =
      (⟨100, "excellent", true, some (PF.fin 30), some 0, some 1⟩, [], []) ∧
    savingsRatePoints (PF.fin 30) = 40 ∧
    overspendPoints 0 3 = 30 ∧
    consistencyPoints 1 = 30 := by
  with_unfolding_all decide

set_option maxRecDepth 8000 in
/-- C10: whenever the debt classifier's no-debt gap text is among a run's
gaps, the generated questionnaire contains the credit-score question in
addition to the debt-confirmation question — the gap text contains the
substring `credit` (from "credit cards"), so the credit-score rule fires
on it regardless of what the credit classifier itself found. -/
theorem c10_debt_gap_credit_question (rows : List RawTx) (accounts : List Account)
    (userGoals : List String)
    (h : debtGapText ∈ (runFullDiagnostic rows accounts userGoals).gaps) :
    "credit_score" ∈
      ((runFullDiagnostic rows accounts userGoals).questionnaire).map Question.id ∧
    "debt_confirmation" ∈
      ((runFullDiagnostic rows accounts userGoals).questionnaire).map Question.id := by
  have hc : creditScoreQ ∈ questionsForGap debtGapText := by with_unfolding_all decide
  have hd : debtConfirmationQ ∈ questionsForGap debtGapText := by with_unfolding_all decide
  constructor
  · exact List.mem_map.mpr
      ⟨creditScoreQ, questionsForGap_mem_questionnaire _ _ _ h _ hc, rfl⟩
  · exact List.mem_map.mpr
      ⟨debtConfirmationQ, questionsForGap_mem_questionnaire _ _ _ h _ hd, rfl⟩

set_option maxRecDepth 8000 in
/-- C10 witness: on the empty input the debt classifier records its
no-debt gap, and both questions appear in the questionnaire. -/
theorem c10_debt_gap_credit_question_witness :
    "credit_score" ∈ ((runFullDiagnostic [] [] []).questionnaire).map Question.id ∧
    "debt_confirmation" ∈ ((runFullDiagnostic [] [] []).questionnaire).map Question.id :=
  c10_debt_gap_credit_question [] [] [] (by with_unfolding_all decide)

end PFD
